import Mathlib

/-!
Shallow embedding of pushmybutton.py, an AWS Lambda handler that routes
IoT button click events (SINGLE / DOUBLE / LONG) to HTTP calls against the
Leading2Lean REST API.

Modelling choices:
- JSON values are the inductive `JVal`; Python `None` is `JVal.null`.
- The external API is a deterministic oracle `Api : Request -> Envelope`,
  where an `Envelope` is the parsed JSON response body with its `success`
  flag and `data` payload.
- Every function that performs HTTP calls returns
  `Except String A × List Request`: the normal result or a raised Python
  exception (KeyError / TypeError rendered as strings), paired with the
  trace of HTTP requests issued, in order, before returning or raising.
- Real wall-clock time (getCurrentDateTimeStr) is replaced by an explicit
  `now : String` parameter threaded to the handlers.
-/

def URL : String := "https://acme.leading2lean.com/api/1.0/"

def AUTH : String := "abc123"

def SITEID : String := "1"

/-- JSON-like values, the shallow embedding of the Python objects the
script manipulates. -/
inductive JVal where
  | null : JVal
  | bool : Bool → JVal
  | num : Int → JVal
  | str : String → JVal
  | arr : List JVal → JVal
  | obj : List (String × JVal) → JVal

/-- Python truthiness of a JSON value, as used by `if not order:` etc. -/
def pyTruthy : JVal → Bool
  | JVal.null => false
  | JVal.bool b => b
  | JVal.num n => n != 0
  | JVal.str s => !s.isEmpty
  | JVal.arr xs => !xs.isEmpty
  | JVal.obj fs => !fs.isEmpty

/-- Python len() on a JSON value: defined for strings, lists and dicts,
a TypeError (`none`) otherwise. -/
def pyLen : JVal → Option Nat
  | JVal.str s => some s.length
  | JVal.arr xs => some xs.length
  | JVal.obj fs => some fs.length
  | _ => none

/-- Whether a JSON value is a Python list (isinstance(x, list)). -/
def isArr : JVal → Bool
  | JVal.arr _ => true
  | _ => false

/-- First element of a list value; only used under a guard that the
value is a non-empty list. -/
def arrHead : JVal → JVal
  | JVal.arr (x :: _) => x
  | _ => JVal.null

/-- Lookup of a key in an association list of object fields. -/
def lookupField : List (String × JVal) → String → Option JVal
  | [], _ => none
  | (k, v) :: rest, key => if k == key then some v else lookupField rest key

/-- Python subscript `v[key]` with a string key: succeeds on dicts that
have the key, raises KeyError on dicts without it, TypeError otherwise. -/
def pyGetItem (v : JVal) (key : String) : Except String JVal :=
  match v with
  | JVal.obj fs =>
    match lookupField fs key with
    | some x => Except.ok x
    | none => Except.error ("KeyError: " ++ key)
  | _ => Except.error ("TypeError: value is not subscriptable at key " ++ key)

/-- Parsed JSON response envelope of the Leading2Lean API. -/
structure Envelope where
  success : Bool
  data : JVal

/-- An outbound HTTP request: method (POST or GET), full URL, and the
merged query/form parameters. -/
structure Request where
  isPost : Bool
  path : String
  params : List (String × JVal)

/-- The external API as a deterministic oracle from requests to parsed
response envelopes. -/
def Api : Type := Request → Envelope

/-- Python dict insertion: overwrite in place if the key exists, append
otherwise. -/
def pyDictInsert (fs : List (String × JVal)) (k : String) (v : JVal) :
    List (String × JVal) :=
  if fs.any (fun p => p.1 == k) then
    fs.map (fun p => if p.1 == k then (k, v) else p)
  else fs ++ [(k, v)]

/-- Parameter dict built by doGet / doPost: auth, site and limit first,
then the caller's fields merged in (Python dict-literal merge order). -/
def mergeParams (data : List (String × JVal)) (limit : Int) :
    List (String × JVal) :=
  data.foldl (fun acc p => pyDictInsert acc p.1 p.2)
    [("auth", JVal.str AUTH), ("site", JVal.str SITEID), ("limit", JVal.num limit)]

/-- Response normalization, the embedding of finishRequest: on success with
truthy data, return data[0] when limit is 1 and data is a non-empty list,
else the raw data; otherwise return None. Calling len() on an unsized
value raises TypeError. -/
def finishRequest (env : Envelope) (limit : Int) : Except String JVal :=
  if env.success && pyTruthy env.data then
    if limit == 1 then
      match pyLen env.data with
      | none => Except.error "TypeError: object has no len"
      | some n =>
        if decide (0 < n) && isArr env.data then Except.ok (arrHead env.data)
        else Except.ok env.data
    else Except.ok env.data
  else Except.ok JVal.null

/-- GET wrapper: merges auth/site/limit into the parameters, issues one
request and normalizes the response. -/
def doGet (api : Api) (url : String) (data : List (String × JVal)) (limit : Int) :
    Except String JVal × List Request :=
  let req : Request := ⟨false, URL ++ url, mergeParams data limit⟩
  (finishRequest (api req) limit, [req])

/-- POST wrapper: merges auth/site/limit into the parameters, issues one
request and normalizes the response. -/
def doPost (api : Api) (url : String) (data : List (String × JVal)) (limit : Int) :
    Except String JVal × List Request :=
  let req : Request := ⟨true, URL ++ url, mergeParams data limit⟩
  (finishRequest (api req) limit, [req])

def getMachineInfoByCode (api : Api) (machineCode : JVal) :
    Except String JVal × List Request :=
  doGet api "machines/" [("code", machineCode)] 1

def getCurrentOrderByLineCode (api : Api) (lineCode : JVal) :
    Except String JVal × List Request :=
  doGet api "buildsequence/get_current_order_on_line/" [("linecode", lineCode)] 1

def getLineInfoByCode (api : Api) (lineCode : JVal) :
    Except String JVal × List Request :=
  doGet api "lines/" [("code", lineCode)] 1

def getProductInfoById (api : Api) (productId : JVal) :
    Except String JVal × List Request :=
  doGet api "productcomponents/" [("id", productId)] 1

/-- Next-order fallback: look up the line; if the line is falsy return
None without a second request, else query buildsequence with status
bounds 2..6 ordered by descending schedule start date. -/
def getNextOrderByLineCode (api : Api) (lineCode : JVal) :
    Except String JVal × List Request :=
  let l := getLineInfoByCode api lineCode
  match l.1 with
  | Except.error e => (Except.error e, l.2)
  | Except.ok line =>
    if pyTruthy line then
      match pyGetItem line "id" with
      | Except.error e => (Except.error e, l.2)
      | Except.ok lid =>
        let b := doGet api "buildsequence/"
          [("line", lid), ("order_by", JVal.str "-schedule_start_date"),
           ("status__gte", JVal.str "2"), ("status__lte", JVal.str "6")] 1
        (b.1, l.2 ++ b.2)
    else (Except.ok JVal.null, l.2)

/-- Order resolution: the current order on the line when truthy, else the
next-order fallback, normalizing a falsy result to None. -/
def getOrderByLineCode (api : Api) (lineCode : JVal) :
    Except String JVal × List Request :=
  let c := getCurrentOrderByLineCode api lineCode
  match c.1 with
  | Except.error e => (Except.error e, c.2)
  | Except.ok order =>
    if pyTruthy order then (Except.ok order, c.2)
    else
      let n := getNextOrderByLineCode api lineCode
      ((match n.1 with
        | Except.error e => Except.error e
        | Except.ok order2 =>
          if pyTruthy order2 then Except.ok order2
          else Except.ok JVal.null), c.2 ++ n.2)

/-- Structured result returned by the action handlers. -/
structure ActionResult where
  success : Bool
  result : Option JVal
  error : Option String

/-- SINGLE click action: resolve machine, line and order, then POST one
pitch-details record with actual = 1; fail with No order found when the
order resolution is falsy. -/
def executeIncrementProductCountByMachineCode (api : Api) (now : String)
    (thingData : JVal) : Except String ActionResult × List Request :=
  match pyGetItem thingData "machineCode" with
  | Except.error e => (Except.error e, [])
  | Except.ok mcode =>
    let m := getMachineInfoByCode api mcode
    match m.1 with
    | Except.error e => (Except.error e, m.2)
    | Except.ok machineInfo =>
      match pyGetItem machineInfo "linecode" with
      | Except.error e => (Except.error e, m.2)
      | Except.ok lc =>
        let o := getOrderByLineCode api lc
        match o.1 with
        | Except.error e => (Except.error e, m.2 ++ o.2)
        | Except.ok order =>
          if pyTruthy order then
            match pyGetItem order "product" with
            | Except.error e => (Except.error e, m.2 ++ o.2)
            | Except.ok productId =>
              let p := getProductInfoById api productId
              match p.1 with
              | Except.error e => (Except.error e, m.2 ++ o.2 ++ p.2)
              | Except.ok product =>
                match pyGetItem product "code" with
                | Except.error e => (Except.error e, m.2 ++ o.2 ++ p.2)
                | Except.ok pcode =>
                  let w := doPost api "pitchdetails/record_details/"
                    [("linecode", lc), ("start", JVal.str now),
                     ("end", JVal.str now), ("productcode", pcode),
                     ("actual", JVal.num 1)] 1
                  ((match w.1 with
                    | Except.error e => Except.error e
                    | Except.ok r => Except.ok ⟨true, some r, none⟩),
                   m.2 ++ o.2 ++ p.2 ++ w.2)
          else (Except.ok ⟨false, none, some "No order found"⟩, m.2 ++ o.2)

/-- DOUBLE click action: same as the product count action but the POST
carries scrap = 1 instead of actual = 1. -/
def executeIncrementScrapCountByMachineCode (api : Api) (now : String)
    (thingData : JVal) : Except String ActionResult × List Request :=
  match pyGetItem thingData "machineCode" with
  | Except.error e => (Except.error e, [])
  | Except.ok mcode =>
    let m := getMachineInfoByCode api mcode
    match m.1 with
    | Except.error e => (Except.error e, m.2)
    | Except.ok machineInfo =>
      match pyGetItem machineInfo "linecode" with
      | Except.error e => (Except.error e, m.2)
      | Except.ok lc =>
        let o := getOrderByLineCode api lc
        match o.1 with
        | Except.error e => (Except.error e, m.2 ++ o.2)
        | Except.ok order =>
          if pyTruthy order then
            match pyGetItem order "product" with
            | Except.error e => (Except.error e, m.2 ++ o.2)
            | Except.ok productId =>
              let p := getProductInfoById api productId
              match p.1 with
              | Except.error e => (Except.error e, m.2 ++ o.2 ++ p.2)
              | Except.ok product =>
                match pyGetItem product "code" with
                | Except.error e => (Except.error e, m.2 ++ o.2 ++ p.2)
                | Except.ok pcode =>
                  let w := doPost api "pitchdetails/record_details/"
                    [("linecode", lc), ("start", JVal.str now),
                     ("end", JVal.str now), ("productcode", pcode),
                     ("scrap", JVal.num 1)] 1
                  ((match w.1 with
                    | Except.error e => Except.error e
                    | Except.ok r => Except.ok ⟨true, some r, none⟩),
                   m.2 ++ o.2 ++ p.2 ++ w.2)
          else (Except.ok ⟨false, none, some "No order found"⟩, m.2 ++ o.2)

/-- Dead variant kept in the source behind a comment: increment the
machine cycle count. -/
def executeIncrementMachineCycleCountByMachineCode (api : Api)
    (thingData : JVal) : Except String ActionResult × List Request :=
  match pyGetItem thingData "machineCode" with
  | Except.error e => (Except.error e, [])
  | Except.ok mc =>
    let w := doPost api "machines/increment_cycle_count/"
      [("code", mc), ("cyclecount", JVal.num 1), ("skip_lastupdated", JVal.num 1)] 1
    ((match w.1 with
      | Except.error e => Except.error e
      | Except.ok r => Except.ok ⟨true, some r, none⟩), w.2)

/-- LONG click action: open a Code Red dispatch for the machine with one
POST and no preceding lookup. -/
def executeLaunchCodeRedDispatchByMachineCode (api : Api)
    (thingData : JVal) : Except String ActionResult × List Request :=
  match pyGetItem thingData "machineCode" with
  | Except.error e => (Except.error e, [])
  | Except.ok mc =>
    let w := doPost api "dispatches/open/"
      [("dispatchtypecode", JVal.str "Code Red"),
       ("description", JVal.str "Launched by IoT button"),
       ("machinecode", mc), ("tradecode", JVal.str "Mechanic"),
       ("user", JVal.str "DEMOAPI")] 1
    ((match w.1 with
      | Except.error e => Except.error e
      | Except.ok r => Except.ok ⟨true, some r, none⟩), w.2)

/-- Static serial-number-to-machine-code table of getThingData. -/
def machineCodeLineMatrix (serialNumber : String) : Option String :=
  if serialNumber == "BUTTON-01-SERIAL" then some "GreenMachine"
  else if serialNumber == "BUTTON-02-SERIAL" then some "BlueMachine"
  else if serialNumber == "BUTTON-03-SERIAL" then some "YellowMachine"
  else if serialNumber == "BUTTON-04-SERIAL" then some "OrangeMachine"
  else none

/-- Serial-to-thing lookup: a dict with the machine code on a hit, an
unhandled KeyError on a miss. -/
def getThingData (serialNumber : String) : Except String JVal :=
  match machineCodeLineMatrix serialNumber with
  | some code => Except.ok (JVal.obj [("machineCode", JVal.str code)])
  | none => Except.error ("KeyError: " ++ serialNumber)

/-- Incoming button event. -/
structure Event where
  serialNumber : String
  clickType : String

/-- HTTP-shaped response of the router. -/
structure LambdaResponse where
  statusCode : Nat
  body : String

/-- Common shape of the three registered action handlers. -/
def HandlerFn : Type :=
  Api → String → JVal → Except String ActionResult × List Request

/-- Click-type-to-handler dict of lambda_handler. -/
def selectMethod (clickType : String) : Option HandlerFn :=
  if clickType == "SINGLE" then some executeIncrementProductCountByMachineCode
  else if clickType == "DOUBLE" then some executeIncrementScrapCountByMachineCode
  else if clickType == "LONG" then
    some (fun api _ td => executeLaunchCodeRedDispatchByMachineCode api td)
  else none

/-- The event router: resolve the serial number, dispatch to the handler
for the click type (KeyError on an unknown click type), discard the
handler result and answer 200 with a fixed body string. -/
def lambda_handler (api : Api) (now : String) (event : Event) :
    Except String LambdaResponse × List Request :=
  match getThingData event.serialNumber with
  | Except.error e => (Except.error e, [])
  | Except.ok thingData =>
    match selectMethod event.clickType with
    | none => (Except.error ("KeyError: " ++ event.clickType), [])
    | some m =>
      let r := m api now thingData
      ((match r.1 with
        | Except.error e => Except.error e
        | Except.ok _ =>
          Except.ok ⟨200, event.clickType ++ " event run for button " ++ event.serialNumber⟩),
       r.2)

/-- Write (POST) requests of a trace. -/
def writes (t : List Request) : List Request :=
  t.filter (fun r => r.isPost)

/-- Read (GET) requests of a trace. -/
def reads (t : List Request) : List Request :=
  t.filter (fun r => !r.isPost)

/-- Oracle for runs where the current order exists: machines yields a line
code, the current-order query yields an order, productcomponents yields a
product, and every other request is answered with a one-element list. -/
def apiHappy : Api := fun req =>
  if req.path == URL ++ "machines/" then
    ⟨true, JVal.arr [JVal.obj [("linecode", JVal.str "Line-1")]]⟩
  else if req.path == URL ++ "buildsequence/get_current_order_on_line/" then
    ⟨true, JVal.arr [JVal.obj [("product", JVal.num 7)]]⟩
  else if req.path == URL ++ "productcomponents/" then
    ⟨true, JVal.arr [JVal.obj [("code", JVal.str "Widget")]]⟩
  else ⟨true, JVal.arr [JVal.obj [("id", JVal.num 99)]]⟩

/-- Oracle for runs where no order can be resolved: machines yields a line
code and every other request is answered with success and an empty list. -/
def apiNoOrder : Api := fun req =>
  if req.path == URL ++ "machines/" then
    ⟨true, JVal.arr [JVal.obj [("linecode", JVal.str "Line-1")]]⟩
  else ⟨true, JVal.arr []⟩

/-- Oracle for runs that reach the next-order fallback: the current-order
query is empty, the line lookup yields a line id, and the buildsequence
query yields a two-element list. -/
def apiNext : Api := fun req =>
  if req.path == URL ++ "buildsequence/get_current_order_on_line/" then
    ⟨true, JVal.arr []⟩
  else if req.path == URL ++ "lines/" then
    ⟨true, JVal.arr [JVal.obj [("id", JVal.num 5)]]⟩
  else if req.path == URL ++ "buildsequence/" then
    ⟨true, JVal.arr [JVal.obj [("product", JVal.num 7)],
                     JVal.obj [("product", JVal.num 8)]]⟩
  else ⟨true, JVal.arr [JVal.obj [("linecode", JVal.str "Line-1")]]⟩

/-- C3: response normalization. On success with data a two-element list
and limit 1 the result is the first element; on success with empty data
the result is None for every limit; on failure the result is None for
every data and limit. -/
theorem finishRequest_normalization :
    (∀ x y : JVal, finishRequest ⟨true, JVal.arr [x, y]⟩ 1 = Except.ok x)
    ∧ (∀ limit : Int, finishRequest ⟨true, JVal.arr []⟩ limit = Except.ok JVal.null)
    ∧ (∀ (d : JVal) (limit : Int), finishRequest ⟨false, d⟩ limit = Except.ok JVal.null) := by
  refine ⟨fun x y => ?_, fun limit => ?_, fun d limit => ?_⟩
  · simp [finishRequest, pyTruthy, pyLen, isArr, arrHead]
  · simp [finishRequest, pyTruthy]
  · simp [finishRequest]

/-- C4: every serial number of the static four-entry table maps to its
machine code, and any other serial number raises an unhandled KeyError. -/
theorem getThingData_table_spec :
    getThingData "BUTTON-01-SERIAL" = Except.ok (JVal.obj [("machineCode", JVal.str "GreenMachine")])
    ∧ getThingData "BUTTON-02-SERIAL" = Except.ok (JVal.obj [("machineCode", JVal.str "BlueMachine")])
    ∧ getThingData "BUTTON-03-SERIAL" = Except.ok (JVal.obj [("machineCode", JVal.str "YellowMachine")])
    ∧ getThingData "BUTTON-04-SERIAL" = Except.ok (JVal.obj [("machineCode", JVal.str "OrangeMachine")])
    ∧ (∀ s : String, s ≠ "BUTTON-01-SERIAL" → s ≠ "BUTTON-02-SERIAL" →
        s ≠ "BUTTON-03-SERIAL" → s ≠ "BUTTON-04-SERIAL" →
        getThingData s = Except.error ("KeyError: " ++ s))
    ∧ (∀ (api : Api) (now : String) (ev : Event) (e : String),
        getThingData ev.serialNumber = Except.error e →
        lambda_handler api now ev = (Except.error e, [])) := by
  refine ⟨rfl, rfl, rfl, rfl, fun s h1 h2 h3 h4 => ?_, fun api now ev e he => ?_⟩
  · simp [getThingData, machineCodeLineMatrix, h1, h2, h3, h4]
  · simp only [lambda_handler, he]

/-- C4 witness: the KeyError case fires on a concrete unknown serial and
propagates out of the router unhandled, with no HTTP call issued. -/
theorem getThingData_table_spec_witness :
    getThingData "BUTTON-99-SERIAL" = Except.error ("KeyError: " ++ "BUTTON-99-SERIAL")
    ∧ lambda_handler apiHappy "2021-01-01 00:00:00" ⟨"BUTTON-99-SERIAL", "SINGLE"⟩ =
      (Except.error ("KeyError: " ++ "BUTTON-99-SERIAL"), []) :=
  ⟨getThingData_table_spec.2.2.2.2.1 "BUTTON-99-SERIAL"
    (by decide) (by decide) (by decide) (by decide),
   getThingData_table_spec.2.2.2.2.2 apiHappy "2021-01-01 00:00:00"
    ⟨"BUTTON-99-SERIAL", "SINGLE"⟩ ("KeyError: " ++ "BUTTON-99-SERIAL") rfl⟩

/-- C5: for a LONG click on a known serial number, the run issues exactly
one HTTP call, a POST to dispatches/open/ carrying the fixed dispatch
type, trade, description and user fields together with the resolved
machine code, whatever the API answers; in particular no read precedes
the write. -/
theorem long_click_single_dispatch_write (api : Api) (now : String)
    (serial c : String) (hs : machineCodeLineMatrix serial = some c) :
    (lambda_handler api now ⟨serial, "LONG"⟩).2 =
      [⟨true, URL ++ "dispatches/open/",
        [("auth", JVal.str AUTH), ("site", JVal.str SITEID), ("limit", JVal.num 1),
         ("dispatchtypecode", JVal.str "Code Red"),
         ("description", JVal.str "Launched by IoT button"),
         ("machinecode", JVal.str c), ("tradecode", JVal.str "Mechanic"),
         ("user", JVal.str "DEMOAPI")]⟩] := by
  have h1 : getThingData serial = Except.ok (JVal.obj [("machineCode", JVal.str c)]) := by
    simp [getThingData, hs]
  simp only [lambda_handler, h1]
  rfl

/-- C5 witness: the LONG-click trace for a concrete button and oracle. -/
theorem long_click_single_dispatch_write_witness :
    (lambda_handler apiHappy "2021-01-01 00:00:00" ⟨"BUTTON-01-SERIAL", "LONG"⟩).2 =
      [⟨true, URL ++ "dispatches/open/",
        [("auth", JVal.str AUTH), ("site", JVal.str SITEID), ("limit", JVal.num 1),
         ("dispatchtypecode", JVal.str "Code Red"),
         ("description", JVal.str "Launched by IoT button"),
         ("machinecode", JVal.str "GreenMachine"), ("tradecode", JVal.str "Mechanic"),
         ("user", JVal.str "DEMOAPI")]⟩] :=
  long_click_single_dispatch_write apiHappy "2021-01-01 00:00:00"
    "BUTTON-01-SERIAL" "GreenMachine" rfl

/-- C10: when the lines lookup yields a falsy line, the next-order
fallback answers None with only the lines request issued and no
buildsequence query, and a handler reaching that state (current order
falsy as well) returns the same No order found failure as when no order
is scheduled. -/
theorem empty_line_lookup_skips_buildsequence :
    (∀ (api : Api) (lc l : JVal),
      (getLineInfoByCode api lc).1 = Except.ok l → pyTruthy l = false →
      getNextOrderByLineCode api lc =
        (Except.ok JVal.null, [⟨false, URL ++ "lines/", mergeParams [("code", lc)] 1⟩]))
    ∧ (∀ (api : Api) (now : String) (td mc mi lc o l : JVal),
      pyGetItem td "machineCode" = Except.ok mc →
      (getMachineInfoByCode api mc).1 = Except.ok mi →
      pyGetItem mi "linecode" = Except.ok lc →
      (getCurrentOrderByLineCode api lc).1 = Except.ok o → pyTruthy o = false →
      (getLineInfoByCode api lc).1 = Except.ok l → pyTruthy l = false →
      (executeIncrementProductCountByMachineCode api now td).1 =
        Except.ok ⟨false, none, some "No order found"⟩
      ∧ (executeIncrementScrapCountByMachineCode api now td).1 =
        Except.ok ⟨false, none, some "No order found"⟩) := by
  have hnext : ∀ (api : Api) (lc l : JVal),
      (getLineInfoByCode api lc).1 = Except.ok l → pyTruthy l = false →
      getNextOrderByLineCode api lc =
        (Except.ok JVal.null, [⟨false, URL ++ "lines/", mergeParams [("code", lc)] 1⟩]) := by
    intro api lc l hl hf
    simp only [getNextOrderByLineCode, hl, hf]
    rfl
  refine ⟨hnext, fun api now td mc mi lc o l htd hmi hlc hcur hcurf hl hlf => ?_⟩
  have horder : (getOrderByLineCode api lc).1 = Except.ok JVal.null := by
    simp only [getOrderByLineCode, hcur, hcurf, hnext api lc l hl hlf]
    rfl
  constructor
  · simp only [executeIncrementProductCountByMachineCode, htd, hmi, hlc, horder]
    rfl
  · simp only [executeIncrementScrapCountByMachineCode, htd, hmi, hlc, horder]
    rfl

/-- C10 witness: a concete oracle whose line lookup is empty produces the
None fallback with a single lines request and the No order found failure. -/
theorem empty_line_lookup_skips_buildsequence_witness :
    getNextOrderByLineCode apiNoOrder (JVal.str "Line-1") =
      (Except.ok JVal.null,
       [⟨false, URL ++ "lines/", mergeParams [("code", JVal.str "Line-1")] 1⟩])
    ∧ (executeIncrementProductCountByMachineCode apiNoOrder "2021-01-01 00:00:00"
        (JVal.obj [("machineCode", JVal.str "GreenMachine")])).1 =
      Except.ok ⟨false, none, some "No order found"⟩ :=
  ⟨empty_line_lookup_skips_buildsequence.1 apiNoOrder (JVal.str "Line-1") JVal.null rfl rfl,
   (empty_line_lookup_skips_buildsequence.2 apiNoOrder "2021-01-01 00:00:00"
      (JVal.obj [("machineCode", JVal.str "GreenMachine")]) (JVal.str "GreenMachine")
      (JVal.obj [("linecode", JVal.str "Line-1")]) (JVal.str "Line-1") JVal.null JVal.null
      rfl rfl rfl rfl rfl rfl rfl).1⟩

theorem writes_append (a b : List Request) : writes (a ++ b) = writes a ++ writes b := by
  simp [writes]

theorem writes_nil_getMachineInfo (api : Api) (mc : JVal) :
    writes (getMachineInfoByCode api mc).2 = [] := rfl

theorem writes_nil_getCurrentOrder (api : Api) (lc : JVal) :
    writes (getCurrentOrderByLineCode api lc).2 = [] := rfl

theorem writes_nil_getLineInfo (api : Api) (lc : JVal) :
    writes (getLineInfoByCode api lc).2 = [] := rfl

theorem writes_nil_getProductInfo (api : Api) (pid : JVal) :
    writes (getProductInfoById api pid).2 = [] := rfl

theorem writes_nil_getNextOrder (api : Api) (lc : JVal) :
    writes (getNextOrderByLineCode api lc).2 = [] := by
  unfold getNextOrderByLineCode
  rcases h : (getLineInfoByCode api lc).1 with e | line
  · simp only [h]
    rfl
  · simp only [h]
    by_cases ht : pyTruthy line
    · rcases hg : pyGetItem line "id" with e | lid
      · simp only [ht, if_true, hg]
        rfl
      · simp only [ht, if_true, hg]
        rfl
    · simp only [ht]
      rfl

theorem writes_nil_getOrder (api : Api) (lc : JVal) :
    writes (getOrderByLineCode api lc).2 = [] := by
  unfold getOrderByLineCode
  rcases h : (getCurrentOrderByLineCode api lc).1 with e | ord
  · simp only [h]
    rfl
  · simp only [h]
    by_cases ht : pyTruthy ord
    · simp only [ht, if_true]
      rfl
    · simp only [ht]
      simp only [Bool.false_eq_true, if_false]
      rw [writes_append, writes_nil_getCurrentOrder, writes_nil_getNextOrder]
      rfl

/-- C2: when order resolution on the resolved line is falsy, both the
SINGLE and the DOUBLE handler return the structured failure with error
No order found and their traces contain zero write calls. -/
theorem no_order_failure_no_write (api : Api) (now : String)
    (td mc mi lc o : JVal)
    (htd : pyGetItem td "machineCode" = Except.ok mc)
    (hmi : (getMachineInfoByCode api mc).1 = Except.ok mi)
    (hlc : pyGetItem mi "linecode" = Except.ok lc)
    (ho : (getOrderByLineCode api lc).1 = Except.ok o)
    (hof : pyTruthy o = false) :
    (executeIncrementProductCountByMachineCode api now td).1 =
      Except.ok ⟨false, none, some "No order found"⟩
    ∧ writes (executeIncrementProductCountByMachineCode api now td).2 = []
    ∧ (executeIncrementScrapCountByMachineCode api now td).1 =
      Except.ok ⟨false, none, some "No order found"⟩
    ∧ writes (executeIncrementScrapCountByMachineCode api now td).2 = [] := by
  have hp : executeIncrementProductCountByMachineCode api now td =
      (Except.ok ⟨false, none, some "No order found"⟩,
       (getMachineInfoByCode api mc).2 ++ (getOrderByLineCode api lc).2) := by
    simp only [executeIncrementProductCountByMachineCode, htd, hmi, hlc, ho, hof,
      Bool.false_eq_true, if_false]
  have hs : executeIncrementScrapCountByMachineCode api now td =
      (Except.ok ⟨false, none, some "No order found"⟩,
       (getMachineInfoByCode api mc).2 ++ (getOrderByLineCode api lc).2) := by
    simp only [executeIncrementScrapCountByMachineCode, htd, hmi, hlc, ho, hof,
      Bool.false_eq_true, if_false]
  refine ⟨by rw [hp], ?_, by rw [hs], ?_⟩
  · rw [hp]
    simp only [writes_append, writes_nil_getMachineInfo, writes_nil_getOrder]
    rfl
  · rw [hs]
    simp only [writes_append, writes_nil_getMachineInfo, writes_nil_getOrder]
    rfl

/-- C2 witness: with an oracle whose order queries are all empty, the
SINGLE handler run fails with No order found and issues no write. -/
theorem no_order_failure_no_write_witness :
    (executeIncrementProductCountByMachineCode apiNoOrder "2021-01-01 00:00:00"
      (JVal.obj [("machineCode", JVal.str "GreenMachine")])).1 =
      Except.ok ⟨false, none, some "No order found"⟩
    ∧ writes (executeIncrementProductCountByMachineCode apiNoOrder "2021-01-01 00:00:00"
      (JVal.obj [("machineCode", JVal.str "GreenMachine")])).2 = []
    ∧ (executeIncrementScrapCountByMachineCode apiNoOrder "2021-01-01 00:00:00"
      (JVal.obj [("machineCode", JVal.str "GreenMachine")])).1 =
      Except.ok ⟨false, none, some "No order found"⟩
    ∧ writes (executeIncrementScrapCountByMachineCode apiNoOrder "2021-01-01 00:00:00"
      (JVal.obj [("machineCode", JVal.str "GreenMachine")])).2 = [] :=
  no_order_failure_no_write apiNoOrder "2021-01-01 00:00:00"
    (JVal.obj [("machineCode", JVal.str "GreenMachine")]) (JVal.str "GreenMachine")
    (JVal.obj [("linecode", JVal.str "Line-1")]) (JVal.str "Line-1") JVal.null
    rfl rfl rfl rfl rfl

/-- C1: when order resolution on the resolved line yields a truthy order
and the subsequent lookups succeed, the SINGLE handler issues exactly one
write call, a POST to pitchdetails/record_details/ whose parameters carry
actual = 1 and no scrap key, and the DOUBLE handler issues exactly one
write call whose parameters carry scrap = 1 and no actual key. -/
theorem single_double_write_fields (api : Api) (now : String)
    (td mc mi lc o pid p pcode : JVal)
    (htd : pyGetItem td "machineCode" = Except.ok mc)
    (hmi : (getMachineInfoByCode api mc).1 = Except.ok mi)
    (hlc : pyGetItem mi "linecode" = Except.ok lc)
    (ho : (getOrderByLineCode api lc).1 = Except.ok o)
    (hot : pyTruthy o = true)
    (hpid : pyGetItem o "product" = Except.ok pid)
    (hp : (getProductInfoById api pid).1 = Except.ok p)
    (hpc : pyGetItem p "code" = Except.ok pcode) :
    writes (executeIncrementProductCountByMachineCode api now td).2 =
      [⟨true, URL ++ "pitchdetails/record_details/",
        [("auth", JVal.str AUTH), ("site", JVal.str SITEID), ("limit", JVal.num 1),
         ("linecode", lc), ("start", JVal.str now), ("end", JVal.str now),
         ("productcode", pcode), ("actual", JVal.num 1)]⟩]
    ∧ lookupField
        [("auth", JVal.str AUTH), ("site", JVal.str SITEID), ("limit", JVal.num 1),
         ("linecode", lc), ("start", JVal.str now), ("end", JVal.str now),
         ("productcode", pcode), ("actual", JVal.num 1)] "scrap" = none
    ∧ writes (executeIncrementScrapCountByMachineCode api now td).2 =
      [⟨true, URL ++ "pitchdetails/record_details/",
        [("auth", JVal.str AUTH), ("site", JVal.str SITEID), ("limit", JVal.num 1),
         ("linecode", lc), ("start", JVal.str now), ("end", JVal.str now),
         ("productcode", pcode), ("scrap", JVal.num 1)]⟩]
    ∧ lookupField
        [("auth", JVal.str AUTH), ("site", JVal.str SITEID), ("limit", JVal.num 1),
         ("linecode", lc), ("start", JVal.str now), ("end", JVal.str now),
         ("productcode", pcode), ("scrap", JVal.num 1)] "actual" = none := by
  have h2 : (executeIncrementProductCountByMachineCode api now td).2 =
      (getMachineInfoByCode api mc).2 ++ (getOrderByLineCode api lc).2 ++
      (getProductInfoById api pid).2 ++
      [⟨true, URL ++ "pitchdetails/record_details/",
        mergeParams [("linecode", lc), ("start", JVal.str now), ("end", JVal.str now),
          ("productcode", pcode), ("actual", JVal.num 1)] 1⟩] := by
    simp only [executeIncrementProductCountByMachineCode, htd, hmi, hlc, ho, hot,
      if_true, hpid, hp, hpc]
    rfl
  have h3 : (executeIncrementScrapCountByMachineCode api now td).2 =
      (getMachineInfoByCode api mc).2 ++ (getOrderByLineCode api lc).2 ++
      (getProductInfoById api pid).2 ++
      [⟨true, URL ++ "pitchdetails/record_details/",
        mergeParams [("linecode", lc), ("start", JVal.str now), ("end", JVal.str now),
          ("productcode", pcode), ("scrap", JVal.num 1)] 1⟩] := by
    simp only [executeIncrementScrapCountByMachineCode, htd, hmi, hlc, ho, hot,
      if_true, hpid, hp, hpc]
    rfl
  refine ⟨?_, rfl, ?_, rfl⟩
  · rw [h2]
    simp only [writes_append, writes_nil_getMachineInfo, writes_nil_getOrder,
      writes_nil_getProductInfo]
    rfl
  · rw [h3]
    simp only [writes_append, writes_nil_getMachineInfo, writes_nil_getOrder,
      writes_nil_getProductInfo]
    rfl

/-- C1 witness: with an oracle holding a current order, the SINGLE run
issues the single actual-count write and the DOUBLE run the single
scrap-count write. -/
theorem single_double_write_fields_witness :
    writes (executeIncrementProductCountByMachineCode apiHappy "2021-01-01 00:00:00"
      (JVal.obj [("machineCode", JVal.str "GreenMachine")])).2 =
      [⟨true, URL ++ "pitchdetails/record_details/",
        [("auth", JVal.str AUTH), ("site", JVal.str SITEID), ("limit", JVal.num 1),
         ("linecode", JVal.str "Line-1"), ("start", JVal.str "2021-01-01 00:00:00"),
         ("end", JVal.str "2021-01-01 00:00:00"),
         ("productcode", JVal.str "Widget"), ("actual", JVal.num 1)]⟩]
    ∧ lookupField
        [("auth", JVal.str AUTH), ("site", JVal.str SITEID), ("limit", JVal.num 1),
         ("linecode", JVal.str "Line-1"), ("start", JVal.str "2021-01-01 00:00:00"),
         ("end", JVal.str "2021-01-01 00:00:00"),
         ("productcode", JVal.str "Widget"), ("actual", JVal.num 1)] "scrap" = none
    ∧ writes (executeIncrementScrapCountByMachineCode apiHappy "2021-01-01 00:00:00"
      (JVal.obj [("machineCode", JVal.str "GreenMachine")])).2 =
      [⟨true, URL ++ "pitchdetails/record_details/",
        [("auth", JVal.str AUTH), ("site", JVal.str SITEID), ("limit", JVal.num 1),
         ("linecode", JVal.str "Line-1"), ("start", JVal.str "2021-01-01 00:00:00"),
         ("end", JVal.str "2021-01-01 00:00:00"),
         ("productcode", JVal.str "Widget"), ("scrap", JVal.num 1)]⟩]
    ∧ lookupField
        [("auth", JVal.str AUTH), ("site", JVal.str SITEID), ("limit", JVal.num 1),
         ("linecode", JVal.str "Line-1"), ("start", JVal.str "2021-01-01 00:00:00"),
         ("end", JVal.str "2021-01-01 00:00:00"),
         ("productcode", JVal.str "Widget"), ("scrap", JVal.num 1)] "actual" = none :=
  single_double_write_fields apiHappy "2021-01-01 00:00:00"
    (JVal.obj [("machineCode", JVal.str "GreenMachine")]) (JVal.str "GreenMachine")
    (JVal.obj [("linecode", JVal.str "Line-1")]) (JVal.str "Line-1")
    (JVal.obj [("product", JVal.num 7)]) (JVal.num 7)
    (JVal.obj [("code", JVal.str "Widget")]) (JVal.str "Widget")
    rfl rfl rfl rfl rfl rfl rfl rfl

/-- C6: order resolution prefers a truthy current order and then issues no
further request; only on a falsy current order does it run the next-order
fallback, whose buildsequence query carries limit 1, descending
schedule-start ordering and status bounds 2 to 6 inclusive; with limit 1
the normalization returns exactly the first element of a non-empty data
list, and an empty data list normalizes to None. -/
theorem order_resolution_spec :
    (∀ (api : Api) (lc o : JVal),
      (getCurrentOrderByLineCode api lc).1 = Except.ok o → pyTruthy o = true →
      getOrderByLineCode api lc = (Except.ok o, (getCurrentOrderByLineCode api lc).2))
    ∧ (∀ (api : Api) (lc o : JVal),
      (getCurrentOrderByLineCode api lc).1 = Except.ok o → pyTruthy o = false →
      (getOrderByLineCode api lc).2 =
        (getCurrentOrderByLineCode api lc).2 ++ (getNextOrderByLineCode api lc).2
      ∧ (getOrderByLineCode api lc).1 =
        (match (getNextOrderByLineCode api lc).1 with
         | Except.error e => Except.error e
         | Except.ok o2 => if pyTruthy o2 then Except.ok o2 else Except.ok JVal.null))
    ∧ (∀ (api : Api) (lc line lid : JVal),
      (getLineInfoByCode api lc).1 = Except.ok line → pyTruthy line = true →
      pyGetItem line "id" = Except.ok lid →
      getNextOrderByLineCode api lc =
        (finishRequest (api ⟨false, URL ++ "buildsequence/",
            [("auth", JVal.str AUTH), ("site", JVal.str SITEID), ("limit", JVal.num 1),
             ("line", lid), ("order_by", JVal.str "-schedule_start_date"),
             ("status__gte", JVal.str "2"), ("status__lte", JVal.str "6")]⟩) 1,
         (getLineInfoByCode api lc).2 ++
         [⟨false, URL ++ "buildsequence/",
            [("auth", JVal.str AUTH), ("site", JVal.str SITEID), ("limit", JVal.num 1),
             ("line", lid), ("order_by", JVal.str "-schedule_start_date"),
             ("status__gte", JVal.str "2"), ("status__lte", JVal.str "6")]⟩]))
    ∧ (∀ (x : JVal) (xs : List JVal),
      finishRequest ⟨true, JVal.arr (x :: xs)⟩ 1 = Except.ok x)
    ∧ finishRequest ⟨true, JVal.arr []⟩ 1 = Except.ok JVal.null := by
  refine ⟨fun api lc o h ht => ?_, fun api lc o h ht => ?_,
    fun api lc line lid hl hlt hid => ?_, fun x xs => ?_, ?_⟩
  · simp only [getOrderByLineCode, h, ht, if_true]
  · constructor
    · simp only [getOrderByLineCode, h, ht, Bool.false_eq_true, if_false]
    · simp only [getOrderByLineCode, h, ht, Bool.false_eq_true, if_false]
  · simp only [getNextOrderByLineCode, hl, hlt, if_true, hid]
    rfl
  · simp [finishRequest, pyTruthy, pyLen, isArr, arrHead]
  · simp [finishRequest, pyTruthy]

/-- C6 witness: a truthy current order is returned as is, and with an
empty current order the fallback issues the bounded buildsequence query
and returns the first of its two matches. -/
theorem order_resolution_spec_witness :
    getOrderByLineCode apiHappy (JVal.str "Line-1") =
      (Except.ok (JVal.obj [("product", JVal.num 7)]),
       (getCurrentOrderByLineCode apiHappy (JVal.str "Line-1")).2)
    ∧ getNextOrderByLineCode apiNext (JVal.str "Line-1") =
      (finishRequest (apiNext ⟨false, URL ++ "buildsequence/",
          [("auth", JVal.str AUTH), ("site", JVal.str SITEID), ("limit", JVal.num 1),
           ("line", JVal.num 5), ("order_by", JVal.str "-schedule_start_date"),
           ("status__gte", JVal.str "2"), ("status__lte", JVal.str "6")]⟩) 1,
       (getLineInfoByCode apiNext (JVal.str "Line-1")).2 ++
       [⟨false, URL ++ "buildsequence/",
          [("auth", JVal.str AUTH), ("site", JVal.str SITEID), ("limit", JVal.num 1),
           ("line", JVal.num 5), ("order_by", JVal.str "-schedule_start_date"),
           ("status__gte", JVal.str "2"), ("status__lte", JVal.str "6")]⟩])
    ∧ finishRequest ⟨true, JVal.arr [JVal.obj [("product", JVal.num 7)],
        JVal.obj [("product", JVal.num 8)]]⟩ 1 =
      Except.ok (JVal.obj [("product", JVal.num 7)]) :=
  ⟨order_resolution_spec.1 apiHappy (JVal.str "Line-1")
      (JVal.obj [("product", JVal.num 7)]) rfl rfl,
   order_resolution_spec.2.2.1 apiNext (JVal.str "Line-1")
      (JVal.obj [("id", JVal.num 5)]) (JVal.num 5) rfl rfl rfl,
   order_resolution_spec.2.2.2.1 (JVal.obj [("product", JVal.num 7)])
      [JVal.obj [("product", JVal.num 8)]]⟩

/-- C9: SINGLE, DOUBLE and LONG each select a handler, and for an event
with a known serial number whose selected handler returns any ActionResult
at all, the router answers status 200 with the body string combining click
type and serial number and its trace is exactly the one handler's trace,
whatever the ActionResult says. -/
theorem router_unconditional_response :
    (∀ ct : String, ct = "SINGLE" ∨ ct = "DOUBLE" ∨ ct = "LONG" →
      (selectMethod ct).isSome = true)
    ∧ (∀ (api : Api) (now : String) (ev : Event) (c : String) (m : HandlerFn)
        (r : ActionResult),
      machineCodeLineMatrix ev.serialNumber = some c →
      selectMethod ev.clickType = some m →
      (m api now (JVal.obj [("machineCode", JVal.str c)])).1 = Except.ok r →
      lambda_handler api now ev =
        (Except.ok ⟨200, ev.clickType ++ " event run for button " ++ ev.serialNumber⟩,
         (m api now (JVal.obj [("machineCode", JVal.str c)])).2)) := by
  constructor
  · intro ct h
    rcases h with h | h | h <;> subst h <;> rfl
  · intro api now ev c m r hs hm hr
    have h1 : getThingData ev.serialNumber =
        Except.ok (JVal.obj [("machineCode", JVal.str c)]) := by
      simp [getThingData, hs]
    simp only [lambda_handler, h1, hm, hr]

/-- C9 witness: a concrete SINGLE event on a known button is routed to the
product-count handler, which reports a failure, and the router still
answers 200 with the combined body string. -/
theorem router_unconditional_response_witness :
    (selectMethod "SINGLE").isSome = true
    ∧ lambda_handler apiNoOrder "2021-01-01 00:00:00" ⟨"BUTTON-02-SERIAL", "SINGLE"⟩ =
      (Except.ok ⟨200, "SINGLE event run for button BUTTON-02-SERIAL"⟩,
       (executeIncrementProductCountByMachineCode apiNoOrder "2021-01-01 00:00:00"
         (JVal.obj [("machineCode", JVal.str "BlueMachine")])).2) :=
  ⟨router_unconditional_response.1 "SINGLE" (Or.inl rfl),
   router_unconditional_response.2 apiNoOrder "2021-01-01 00:00:00"
     ⟨"BUTTON-02-SERIAL", "SINGLE"⟩ "BlueMachine"
     executeIncrementProductCountByMachineCode
     ⟨false, none, some "No order found"⟩ rfl rfl rfl⟩

/-- C8 counterexample: two runs of the same SINGLE event whose handlers
return different ActionResults, while the router's response is the same
fixed 200 body in both runs; the ActionResult is therefore not wrapped
into the HTTP response body. -/
theorem action_result_not_in_body_counterexample :
    (executeIncrementProductCountByMachineCode apiNoOrder "2021-01-01 00:00:00"
      (JVal.obj [("machineCode", JVal.str "GreenMachine")])).1 =
      Except.ok ⟨false, none, some "No order found"⟩
    ∧ (executeIncrementProductCountByMachineCode apiHappy "2021-01-01 00:00:00"
      (JVal.obj [("machineCode", JVal.str "GreenMachine")])).1 =
      Except.ok ⟨true, some (JVal.obj [("id", JVal.num 99)]), none⟩
    ∧ (⟨false, none, some "No order found"⟩ : ActionResult) ≠
      ⟨true, some (JVal.obj [("id", JVal.num 99)]), none⟩
    ∧ (lambda_handler apiNoOrder "2021-01-01 00:00:00"
        ⟨"BUTTON-01-SERIAL", "SINGLE"⟩).1 =
      Except.ok ⟨200, "SINGLE event run for button BUTTON-01-SERIAL"⟩
    ∧ (lambda_handler apiHappy "2021-01-01 00:00:00"
        ⟨"BUTTON-01-SERIAL", "SINGLE"⟩).1 =
      Except.ok ⟨200, "SINGLE event run for button BUTTON-01-SERIAL"⟩ :=
  ⟨rfl, rfl, fun h => Bool.noConfusion (congrArg ActionResult.success h), rfl, rfl⟩

/-- C8 amended: the router discards the ActionResult; for an event with a
known serial number, any two runs whose handlers return ActionResults at
all produce the same HTTP response, the fixed 200 body combining click
type and serial number. -/
theorem router_discards_action_result (api1 api2 : Api) (now1 now2 : String)
    (ev : Event) (c : String) (m : HandlerFn) (r1 r2 : ActionResult)
    (hs : machineCodeLineMatrix ev.serialNumber = some c)
    (hm : selectMethod ev.clickType = some m)
    (h1 : (m api1 now1 (JVal.obj [("machineCode", JVal.str c)])).1 = Except.ok r1)
    (h2 : (m api2 now2 (JVal.obj [("machineCode", JVal.str c)])).1 = Except.ok r2) :
    (lambda_handler api1 now1 ev).1 = (lambda_handler api2 now2 ev).1
    ∧ (lambda_handler api1 now1 ev).1 =
      Except.ok ⟨200, ev.clickType ++ " event run for button " ++ ev.serialNumber⟩ := by
  have hg : getThingData ev.serialNumber =
      Except.ok (JVal.obj [("machineCode", JVal.str c)]) := by
    simp [getThingData, hs]
  have e1 : (lambda_handler api1 now1 ev).1 =
      Except.ok ⟨200, ev.clickType ++ " event run for button " ++ ev.serialNumber⟩ := by
    simp only [lambda_handler, hg, hm, h1]
  have e2 : (lambda_handler api2 now2 ev).1 =
      Except.ok ⟨200, ev.clickType ++ " event run for button " ++ ev.serialNumber⟩ := by
    simp only [lambda_handler, hg, hm, h2]
  exact ⟨e1.trans e2.symm, e1⟩

/-- C8 amended witness: two concrete runs with a failing and a succeeding
handler produce the identical fixed router response. -/
theorem router_discards_action_result_witness :
    (lambda_handler apiNoOrder "2021-01-01 00:00:00"
      ⟨"BUTTON-01-SERIAL", "SINGLE"⟩).1 =
    (lambda_handler apiHappy "2021-01-01 00:00:00"
      ⟨"BUTTON-01-SERIAL", "SINGLE"⟩).1
    ∧ (lambda_handler apiNoOrder "2021-01-01 00:00:00"
        ⟨"BUTTON-01-SERIAL", "SINGLE"⟩).1 =
      Except.ok ⟨200, "SINGLE event run for button BUTTON-01-SERIAL"⟩ :=
  router_discards_action_result apiNoOrder apiHappy
    "2021-01-01 00:00:00" "2021-01-01 00:00:00"
    ⟨"BUTTON-01-SERIAL", "SINGLE"⟩ "GreenMachine"
    executeIncrementProductCountByMachineCode
    ⟨false, none, some "No order found"⟩
    ⟨true, some (JVal.obj [("id", JVal.num 99)]), none⟩
    rfl rfl rfl rfl

theorem reads_append (a b : List Request) : reads (a ++ b) = reads a ++ reads b := by
  simp [reads]

theorem reads_len_le (t : List Request) : (reads t).length ≤ t.length :=
  List.length_filter_le _ _

theorem trace_len_getMachineInfo (api : Api) (mc : JVal) :
    (getMachineInfoByCode api mc).2.length = 1 := rfl

theorem trace_len_getCurrentOrder (api : Api) (lc : JVal) :
    (getCurrentOrderByLineCode api lc).2.length = 1 := rfl

theorem trace_len_getLineInfo (api : Api) (lc : JVal) :
    (getLineInfoByCode api lc).2.length = 1 := rfl

theorem trace_len_getProductInfo (api : Api) (pid : JVal) :
    (getProductInfoById api pid).2.length = 1 := rfl

theorem trace_len_getNextOrder_le (api : Api) (lc : JVal) :
    (getNextOrderByLineCode api lc).2.length ≤ 2 := by
  unfold getNextOrderByLineCode
  rcases h : (getLineInfoByCode api lc).1 with e | line
  · simp only [h]
    rw [trace_len_getLineInfo]
    omega
  · simp only [h]
    by_cases ht : pyTruthy line
    · simp only [ht, if_true]
      rcases hg : pyGetItem line "id" with e | lid
      · simp only [hg]
        rw [trace_len_getLineInfo]
        omega
      · simp only [hg]
        simp only [List.length_append]
        rw [trace_len_getLineInfo]
        have : (doGet api "buildsequence/"
            [("line", lid), ("order_by", JVal.str "-schedule_start_date"),
             ("status__gte", JVal.str "2"), ("status__lte", JVal.str "6")] 1).2.length = 1 := rfl
        omega
    · simp only [ht, Bool.false_eq_true, if_false]
      rw [trace_len_getLineInfo]
      omega

theorem trace_len_getOrder_le (api : Api) (lc : JVal) :
    (getOrderByLineCode api lc).2.length ≤ 3 := by
  unfold getOrderByLineCode
  rcases h : (getCurrentOrderByLineCode api lc).1 with e | ord
  · simp only [h]
    rw [trace_len_getCurrentOrder]
    omega
  · simp only [h]
    by_cases ht : pyTruthy ord
    · simp only [ht, if_true]
      rw [trace_len_getCurrentOrder]
      omega
    · simp only [ht, Bool.false_eq_true, if_false]
      simp only [List.length_append]
      rw [trace_len_getCurrentOrder]
      have := trace_len_getNextOrder_le api lc
      omega

theorem exec_product_bounds (api : Api) (now : String) (td : JVal) :
    (executeIncrementProductCountByMachineCode api now td).2.length ≤ 6
    ∧ (writes (executeIncrementProductCountByMachineCode api now td).2).length ≤ 1
    ∧ (reads (executeIncrementProductCountByMachineCode api now td).2).length ≤ 5 := by
  unfold executeIncrementProductCountByMachineCode
  rcases h0 : pyGetItem td "machineCode" with e | mcode
  · simp only [h0]
    refine ⟨by simp, by simp [writes], by simp [reads]⟩
  · simp only [h0]
    rcases h1 : (getMachineInfoByCode api mcode).1 with e | mi
    · simp only [h1]
      have hl := trace_len_getMachineInfo api mcode
      have hr := reads_len_le (getMachineInfoByCode api mcode).2
      have hw : (writes (getMachineInfoByCode api mcode).2).length = 0 := by
        rw [writes_nil_getMachineInfo]
        rfl
      exact ⟨by omega, by omega, by omega⟩
    · simp only [h1]
      rcases h2 : pyGetItem mi "linecode" with e | lc
      · simp only [h2]
        have hl := trace_len_getMachineInfo api mcode
        have hr := reads_len_le (getMachineInfoByCode api mcode).2
        have hw : (writes (getMachineInfoByCode api mcode).2).length = 0 := by
          rw [writes_nil_getMachineInfo]
          rfl
        exact ⟨by omega, by omega, by omega⟩
      · simp only [h2]
        have hl1 := trace_len_getMachineInfo api mcode
        have hr1 := reads_len_le (getMachineInfoByCode api mcode).2
        have hw1 : (writes (getMachineInfoByCode api mcode).2).length = 0 := by
          rw [writes_nil_getMachineInfo]
          rfl
        have hl2 := trace_len_getOrder_le api lc
        have hr2 := reads_len_le (getOrderByLineCode api lc).2
        have hw2 : (writes (getOrderByLineCode api lc).2).length = 0 := by
          rw [writes_nil_getOrder]
          rfl
        rcases h3 : (getOrderByLineCode api lc).1 with e | ord
        · simp only [h3]
          refine ⟨?_, ?_, ?_⟩
          · simp only [List.length_append]
            omega
          · rw [writes_append]
            simp only [List.length_append]
            omega
          · rw [reads_append]
            simp only [List.length_append]
            omega
        · simp only [h3]
          by_cases h4 : pyTruthy ord
          · simp only [h4, if_true]
            rcases h5 : pyGetItem ord "product" with e | pid
            · simp only [h5]
              refine ⟨?_, ?_, ?_⟩
              · simp only [List.length_append]
                omega
              · rw [writes_append]
                simp only [List.length_append]
                omega
              · rw [reads_append]
                simp only [List.length_append]
                omega
            · simp only [h5]
              have hl3 := trace_len_getProductInfo api pid
              have hr3 := reads_len_le (getProductInfoById api pid).2
              have hw3 : (writes (getProductInfoById api pid).2).length = 0 := by
                rw [writes_nil_getProductInfo]
                rfl
              rcases h6 : (getProductInfoById api pid).1 with e | product
              · simp only [h6]
                refine ⟨?_, ?_, ?_⟩
                · simp only [List.length_append]
                  omega
                · rw [writes_append, writes_append]
                  simp only [List.length_append]
                  omega
                · rw [reads_append, reads_append]
                  simp only [List.length_append]
                  omega
              · simp only [h6]
                rcases h7 : pyGetItem product "code" with e | pcode
                · simp only [h7]
                  refine ⟨?_, ?_, ?_⟩
                  · simp only [List.length_append]
                    omega
                  · rw [writes_append, writes_append]
                    simp only [List.length_append]
                    omega
                  · rw [reads_append, reads_append]
                    simp only [List.length_append]
                    omega
                · simp only [h7]
                  refine ⟨?_, ?_, ?_⟩
                  · simp only [List.length_append]
                    have : (doPost api "pitchdetails/record_details/"
                        [("linecode", lc), ("start", JVal.str now), ("end", JVal.str now),
                         ("productcode", pcode), ("actual", JVal.num 1)] 1).2.length = 1 := rfl
                    omega
                  · rw [writes_append, writes_append, writes_append]
                    simp only [List.length_append]
                    have : (writes (doPost api "pitchdetails/record_details/"
                        [("linecode", lc), ("start", JVal.str now), ("end", JVal.str now),
                         ("productcode", pcode), ("actual", JVal.num 1)] 1).2).length = 1 := rfl
                    omega
                  · rw [reads_append, reads_append, reads_append]
                    simp only [List.length_append]
                    have : (reads (doPost api "pitchdetails/record_details/"
                        [("linecode", lc), ("start", JVal.str now), ("end", JVal.str now),
                         ("productcode", pcode), ("actual", JVal.num 1)] 1).2).length = 0 := rfl
                    omega
          · rw [if_neg h4]
            refine ⟨?_, ?_, ?_⟩
            · simp only [List.length_append]
              omega
            · rw [writes_append]
              simp only [List.length_append]
              omega
            · rw [reads_append]
              simp only [List.length_append]
              omega

theorem exec_scrap_bounds (api : Api) (now : String) (td : JVal) :
    (executeIncrementScrapCountByMachineCode api now td).2.length ≤ 6
    ∧ (writes (executeIncrementScrapCountByMachineCode api now td).2).length ≤ 1
    ∧ (reads (executeIncrementScrapCountByMachineCode api now td).2).length ≤ 5 := by
  unfold executeIncrementScrapCountByMachineCode
  rcases h0 : pyGetItem td "machineCode" with e | mcode
  · simp only [h0]
    refine ⟨by simp, by simp [writes], by simp [reads]⟩
  · simp only [h0]
    rcases h1 : (getMachineInfoByCode api mcode).1 with e | mi
    · simp only [h1]
      have hl := trace_len_getMachineInfo api mcode
      have hr := reads_len_le (getMachineInfoByCode api mcode).2
      have hw : (writes (getMachineInfoByCode api mcode).2).length = 0 := by
        rw [writes_nil_getMachineInfo]
        rfl
      exact ⟨by omega, by omega, by omega⟩
    · simp only [h1]
      rcases h2 : pyGetItem mi "linecode" with e | lc
      · simp only [h2]
        have hl := trace_len_getMachineInfo api mcode
        have hr := reads_len_le (getMachineInfoByCode api mcode).2
        have hw : (writes (getMachineInfoByCode api mcode).2).length = 0 := by
          rw [writes_nil_getMachineInfo]
          rfl
        exact ⟨by omega, by omega, by omega⟩
      · simp only [h2]
        have hl1 := trace_len_getMachineInfo api mcode
        have hr1 := reads_len_le (getMachineInfoByCode api mcode).2
        have hw1 : (writes (getMachineInfoByCode api mcode).2).length = 0 := by
          rw [writes_nil_getMachineInfo]
          rfl
        have hl2 := trace_len_getOrder_le api lc
        have hr2 := reads_len_le (getOrderByLineCode api lc).2
        have hw2 : (writes (getOrderByLineCode api lc).2).length = 0 := by
          rw [writes_nil_getOrder]
          rfl
        rcases h3 : (getOrderByLineCode api lc).1 with e | ord
        · simp only [h3]
          refine ⟨?_, ?_, ?_⟩
          · simp only [List.length_append]
            omega
          · rw [writes_append]
            simp only [List.length_append]
            omega
          · rw [reads_append]
            simp only [List.length_append]
            omega
        · simp only [h3]
          by_cases h4 : pyTruthy ord
          · simp only [h4, if_true]
            rcases h5 : pyGetItem ord "product" with e | pid
            · simp only [h5]
              refine ⟨?_, ?_, ?_⟩
              · simp only [List.length_append]
                omega
              · rw [writes_append]
                simp only [List.length_append]
                omega
              · rw [reads_append]
                simp only [List.length_append]
                omega
            · simp only [h5]
              have hl3 := trace_len_getProductInfo api pid
              have hr3 := reads_len_le (getProductInfoById api pid).2
              have hw3 : (writes (getProductInfoById api pid).2).length = 0 := by
                rw [writes_nil_getProductInfo]
                rfl
              rcases h6 : (getProductInfoById api pid).1 with e | product
              · simp only [h6]
                refine ⟨?_, ?_, ?_⟩
                · simp only [List.length_append]
                  omega
                · rw [writes_append, writes_append]
                  simp only [List.length_append]
                  omega
                · rw [reads_append, reads_append]
                  simp only [List.length_append]
                  omega
              · simp only [h6]
                rcases h7 : pyGetItem product "code" with e | pcode
                · simp only [h7]
                  refine ⟨?_, ?_, ?_⟩
                  · simp only [List.length_append]
                    omega
                  · rw [writes_append, writes_append]
                    simp only [List.length_append]
                    omega
                  · rw [reads_append, reads_append]
                    simp only [List.length_append]
                    omega
                · simp only [h7]
                  refine ⟨?_, ?_, ?_⟩
                  · simp only [List.length_append]
                    have : (doPost api "pitchdetails/record_details/"
                        [("linecode", lc), ("start", JVal.str now), ("end", JVal.str now),
                         ("productcode", pcode), ("scrap", JVal.num 1)] 1).2.length = 1 := rfl
                    omega
                  · rw [writes_append, writes_append, writes_append]
                    simp only [List.length_append]
                    have : (writes (doPost api "pitchdetails/record_details/"
                        [("linecode", lc), ("start", JVal.str now), ("end", JVal.str now),
                         ("productcode", pcode), ("scrap", JVal.num 1)] 1).2).length = 1 := rfl
                    omega
                  · rw [reads_append, reads_append, reads_append]
                    simp only [List.length_append]
                    have : (reads (doPost api "pitchdetails/record_details/"
                        [("linecode", lc), ("start", JVal.str now), ("end", JVal.str now),
                         ("productcode", pcode), ("scrap", JVal.num 1)] 1).2).length = 0 := rfl
                    omega
          · rw [if_neg h4]
            refine ⟨?_, ?_, ?_⟩
            · simp only [List.length_append]
              omega
            · rw [writes_append]
              simp only [List.length_append]
              omega
            · rw [reads_append]
              simp only [List.length_append]
              omega

theorem exec_launch_bounds (api : Api) (td : JVal) :
    (executeLaunchCodeRedDispatchByMachineCode api td).2.length ≤ 6
    ∧ (writes (executeLaunchCodeRedDispatchByMachineCode api td).2).length ≤ 1
    ∧ (reads (executeLaunchCodeRedDispatchByMachineCode api td).2).length ≤ 5 := by
  unfold executeLaunchCodeRedDispatchByMachineCode
  rcases h0 : pyGetItem td "machineCode" with e | mc
  · simp only [h0]
    refine ⟨by simp, by simp [writes], by simp [reads]⟩
  · simp only [h0]
    refine ⟨?_, ?_, ?_⟩
    · have : (doPost api "dispatches/open/"
        [("dispatchtypecode", JVal.str "Code Red"),
         ("description", JVal.str "Launched by IoT button"),
         ("machinecode", mc), ("tradecode", JVal.str "Mechanic"),
         ("user", JVal.str "DEMOAPI")] 1).2.length = 1 := rfl
      omega
    · have : (writes (doPost api "dispatches/open/"
        [("dispatchtypecode", JVal.str "Code Red"),
         ("description", JVal.str "Launched by IoT button"),
         ("machinecode", mc), ("tradecode", JVal.str "Mechanic"),
         ("user", JVal.str "DEMOAPI")] 1).2).length = 1 := rfl
      omega
    · have : (reads (doPost api "dispatches/open/"
        [("dispatchtypecode", JVal.str "Code Red"),
         ("description", JVal.str "Launched by IoT button"),
         ("machinecode", mc), ("tradecode", JVal.str "Mechanic"),
         ("user", JVal.str "DEMOAPI")] 1).2).length = 0 := rfl
      omega

/-- C7 counterexample: a SINGLE click on a known button with a current
order on the line issues four sequential HTTP calls, three reads and one
write, exceeding the claimed bound of three calls and two reads. -/
theorem three_call_bound_counterexample :
    (lambda_handler apiHappy "2021-01-01 00:00:00"
      ⟨"BUTTON-01-SERIAL", "SINGLE"⟩).2.length = 4
    ∧ (reads (lambda_handler apiHappy "2021-01-01 00:00:00"
      ⟨"BUTTON-01-SERIAL", "SINGLE"⟩).2).length = 3
    ∧ (writes (lambda_handler apiHappy "2021-01-01 00:00:00"
      ⟨"BUTTON-01-SERIAL", "SINGLE"⟩).2).length = 1
    ∧ 3 < (lambda_handler apiHappy "2021-01-01 00:00:00"
      ⟨"BUTTON-01-SERIAL", "SINGLE"⟩).2.length := by
  refine ⟨rfl, rfl, rfl, ?_⟩
  rw [show (lambda_handler apiHappy "2021-01-01 00:00:00"
      ⟨"BUTTON-01-SERIAL", "SINGLE"⟩).2.length = 4 from rfl]
  omega

/-- C7 amended: every invocation of the handler issues at most six
sequential outbound HTTP calls in total, at most five reads and at most
one write. -/
theorem call_count_bound (api : Api) (now : String) (ev : Event) :
    (lambda_handler api now ev).2.length ≤ 6
    ∧ (writes (lambda_handler api now ev).2).length ≤ 1
    ∧ (reads (lambda_handler api now ev).2).length ≤ 5 := by
  unfold lambda_handler
  rcases h0 : getThingData ev.serialNumber with e | td
  · simp only [h0]
    exact ⟨by simp, by simp [writes], by simp [reads]⟩
  · simp only [h0]
    unfold selectMethod
    cases h1 : ev.clickType == "SINGLE"
    · simp only [h1, Bool.false_eq_true, if_false]
      cases h2 : ev.clickType == "DOUBLE"
      · simp only [h2, Bool.false_eq_true, if_false]
        cases h3 : ev.clickType == "LONG"
        · simp only [h3, Bool.false_eq_true, if_false]
          exact ⟨by simp, by simp [writes], by simp [reads]⟩
        · simp only [h3, if_true]
          exact exec_launch_bounds api td
      · simp only [h2, if_true]
        exact exec_scrap_bounds api now td
    · simp only [h1, if_true]
      exact exec_product_bounds api now td
